import Mathlib

/-!
Shallow embedding of `mc-map-exporter` (src/main.go) in Lean 4, together with
theorems settling the frozen claims about the program.

Conventions of the embedding:
  * Go `uint8` values are modelled as `Nat`; every value produced by the
    program stays below 256, so no wraparound arises at any call site.
  * `multiplyColor` computes `uint8(math.Floor(float64(c) * float64(m) / 255.0))`.
    For `c, m ≤ 255` the product (≤ 65025) is exact in float64, and the
    correctly rounded quotient `fl(p / 255)` never crosses an integer
    boundary (the rounding error is < 2^-40 while the distance from
    `p / 255` to the next larger integer is ≥ 1/255 unless the quotient is
    exact), so the whole expression equals natural floor division
    `c * m / 255`; the embedding uses that.
  * `int(math.Sqrt(float64(n)))` for a Go slice length `n` (far below 2^52,
    where conversion and square root are exact enough that the truncation
    equals the integer square root) is modelled as `Nat.sqrt n`.
  * Go runtime panics (failed type assertions, out-of-range slice index,
    nil-pointer dereference) and `log.Fatal` are modelled by explicit
    outcome constructors, since either one terminates the whole process.
-/

namespace MCMap

/-- Go type `Pixel [4]uint8` from src/main.go line 159, with the four
channels named positionally (channel 0 = R, 1 = G, 2 = B, 3 = alpha). -/
structure Pixel where
  c0 : Nat
  c1 : Nat
  c2 : Nat
  c3 : Nat
deriving DecidableEq, Repr

/-- Go `multiplyColor` (src/main.go lines 238-248): the loop over the four
channels is unrolled; channels with index `i < 3` become
`floor(channel * multiplier / 255)`, the alpha channel is copied. -/
def multiplyColor (inputPixel : Pixel) (multiplier : Nat) : Pixel :=
  { c0 := inputPixel.c0 * multiplier / 255
    c1 := inputPixel.c1 * multiplier / 255
    c2 := inputPixel.c2 * multiplier / 255
    c3 := inputPixel.c3 }

/-- The base color table of `createAllColors` (src/main.go lines 162-225). -/
def baseColors : List Pixel :=
  [⟨0, 0, 0, 0⟩,
   ⟨127, 178, 56, 255⟩,
   ⟨247, 233, 163, 255⟩,
   ⟨199, 199, 199, 255⟩,
   ⟨255, 0, 0, 255⟩,
   ⟨160, 160, 255, 255⟩,
   ⟨167, 167, 167, 255⟩,
   ⟨0, 124, 0, 255⟩,
   ⟨255, 255, 255, 255⟩,
   ⟨164, 168, 184, 255⟩,
   ⟨151, 109, 77, 255⟩,
   ⟨112, 112, 112, 255⟩,
   ⟨64, 64, 255, 255⟩,
   ⟨143, 119, 72, 255⟩,
   ⟨255, 252, 245, 255⟩,
   ⟨216, 127, 51, 255⟩,
   ⟨178, 76, 216, 255⟩,
   ⟨102, 153, 216, 255⟩,
   ⟨229, 229, 51, 255⟩,
   ⟨127, 204, 25, 255⟩,
   ⟨242, 127, 165, 255⟩,
   ⟨76, 76, 76, 255⟩,
   ⟨153, 153, 153, 255⟩,
   ⟨76, 127, 153, 255⟩,
   ⟨127, 63, 178, 255⟩,
   ⟨51, 76, 178, 255⟩,
   ⟨102, 76, 51, 255⟩,
   ⟨102, 127, 51, 255⟩,
   ⟨153, 51, 51, 255⟩,
   ⟨25, 25, 25, 255⟩,
   ⟨250, 238, 77, 255⟩,
   ⟨92, 219, 213, 255⟩,
   ⟨74, 128, 255, 255⟩,
   ⟨0, 217, 58, 255⟩,
   ⟨129, 86, 49, 255⟩,
   ⟨112, 2, 0, 255⟩,
   ⟨209, 177, 161, 255⟩,
   ⟨159, 82, 36, 255⟩,
   ⟨149, 87, 108, 255⟩,
   ⟨112, 108, 138, 255⟩,
   ⟨186, 133, 36, 255⟩,
   ⟨103, 117, 53, 255⟩,
   ⟨160, 77, 78, 255⟩,
   ⟨57, 41, 35, 255⟩,
   ⟨135, 107, 98, 255⟩,
   ⟨87, 92, 92, 255⟩,
   ⟨122, 73, 88, 255⟩,
   ⟨76, 62, 92, 255⟩,
   ⟨76, 50, 35, 255⟩,
   ⟨76, 82, 42, 255⟩,
   ⟨142, 60, 46, 255⟩,
   ⟨37, 22, 16, 255⟩,
   ⟨189, 48, 49, 255⟩,
   ⟨148, 63, 97, 255⟩,
   ⟨92, 25, 29, 255⟩,
   ⟨22, 126, 134, 255⟩,
   ⟨58, 142, 140, 255⟩,
   ⟨86, 44, 62, 255⟩,
   ⟨20, 180, 133, 255⟩,
   ⟨100, 100, 100, 255⟩,
   ⟨216, 175, 147, 255⟩,
   ⟨127, 167, 150, 255⟩]

/-- The multiplier table of `createAllColors` (src/main.go lines 226-228). -/
def multipliers : List Nat := [180, 220, 255, 135]

/-- Go `createAllColors` (src/main.go lines 161-236): outer loop over the
base colors in table order, inner loop over the multipliers in table order,
appending `multiplyColor color multiplier` each time. -/
def createAllColors : List Pixel :=
  baseColors.flatMap (fun color => multipliers.map (fun multiplier => multiplyColor color multiplier))

/-- The RGBA image produced by `createImageFromPixels`: Go's `image.RGBA`
restricted to what the program uses, a width, a height and the pixel rows
(row-major, top-left origin). -/
structure GoImage where
  width : Nat
  height : Nat
  rows : List (List Pixel)
deriving DecidableEq, Repr

/-- Pixel lookup in a `GoImage` at grid coordinate `(x, y)`. -/
def GoImage.pixelAt (img : GoImage) (x y : Nat) : Option Pixel :=
  img.rows[y]?.bind (fun row => row[x]?)

/-- Go `createImageFromPixels` (src/main.go lines 250-262):
`sideLength := int(math.Sqrt(float64(len(pixels))))`, a fresh
`sideLength × sideLength` image, and nested loops placing
`pixels[y*sideLength+x]` at `(x, y)`.  The Go slice access is modelled with
`getD`; it is always in range because `sideLength^2 ≤ len(pixels)`. -/
def createImageFromPixels (pixels : List Pixel) : GoImage :=
  let sideLength := Nat.sqrt pixels.length
  { width := sideLength
    height := sideLength
    rows := (List.range sideLength).map (fun y =>
      (List.range sideLength).map (fun x =>
        pixels.getD (y * sideLength + x) ⟨0, 0, 0, 0⟩)) }

/-- A Go runtime panic raised while resolving palette indices:
`allColors[c]` with `c ≥ len(allColors)` panics with
`index out of range [idx] with length len`. -/
inductive IndexPanic where
  | indexOutOfRange (idx : Nat) (len : Nat)
deriving DecidableEq, Repr

/-- The palette-index resolution loop of `main` (src/main.go lines 88-91):
`for _, c := range colors { pixels = append(pixels, allColors[c]) }`.
An in-range index appends `palette[c]`; an out-of-range index panics at
that point (modelled as `Except.error`), resolving no further indices. -/
def resolvePixels (palette : List Pixel) (colors : List Nat) : Except IndexPanic (List Pixel) :=
  match colors with
  | [] => Except.ok []
  | c :: rest =>
    match palette[c]? with
    | some px => (resolvePixels palette rest).map (fun tail => px :: tail)
    | none => Except.error (IndexPanic.indexOutOfRange c palette.length)

/-- A node of the tag tree produced by `nbt.Unmarshal` into
`map[string]interface{}`, restricted to the shapes the program
distinguishes: the two type assertions in `main` only test for
`map[string]interface{}` and `[]uint8`; every other decoded Go value is
collapsed into `other`. -/
inductive NBTValue where
  | byteArray (bs : List Nat)
  | compound (entries : List (String × NBTValue))
  | other

/-- Outcome of a computation that can end in a Go runtime panic. -/
inductive ExtractOutcome where
  | ok (colors : List Nat)
  | panicked (msg : String)
deriving DecidableEq, Repr

/-- The tag-tree navigation of `main` (src/main.go lines 84-85):
`data := mapdata["data"].(map[string]interface{})` followed by
`colors := data["colors"].([]uint8)`.  A missing key yields a nil
interface and the type assertion on anything but the asserted type
panics with a runtime interface-conversion error. -/
def extractColors (mapdata : List (String × NBTValue)) : ExtractOutcome :=
  match mapdata.lookup "data" with
  | some (NBTValue.compound d) =>
    match d.lookup "colors" with
    | some (NBTValue.byteArray colors) => ExtractOutcome.ok colors
    | _ => ExtractOutcome.panicked "interface conversion: interface {} is not []uint8"
  | _ => ExtractOutcome.panicked "interface conversion: interface {} is not map[string]interface {}"

/-- Outcome of gzip-decoding a file's raw bytes in `compress/gzip`,
abstracting the external library: the header parses and the whole stream
inflates (`ok`), the header is corrupt so `gzip.NewReader` returns
`(nil, err)` (`badHeader`), or the header parses but the stream is
truncated so `io.ReadAll` returns an error (`truncated`). -/
inductive GzipResult where
  | ok (data : List Nat)
  | badHeader
  | truncated
deriving DecidableEq, Repr

/-- Outcome of Go's `gunzipWrite`. -/
inductive GunzipOutcome where
  | ok (data : List Nat)
  | err
  | panicked (msg : String)
deriving DecidableEq, Repr

/-- Go `gunzipWrite` (src/main.go lines 287-296).  The error returned by
`gzip.NewReader` is never checked, so on a corrupt header `gr` is nil and
the subsequent `io.ReadAll(gr)` dereferences a nil pointer and panics; on
a truncated stream `io.ReadAll` returns an error which the function
propagates; otherwise the inflated bytes are written out and nil is
returned. -/
def gunzipWrite (g : GzipResult) : GunzipOutcome :=
  match g with
  | GzipResult.ok data => GunzipOutcome.ok data
  | GzipResult.badHeader =>
      GunzipOutcome.panicked "invalid memory address or nil pointer dereference"
  | GzipResult.truncated => GunzipOutcome.err

/-- What the external decoders would report for one input file: the gzip
stage's outcome and, when the gzip stage succeeds, the result of
`nbt.Unmarshal` on the inflated bytes (`none` = unmarshal error). -/
structure FileContent where
  gzip : GzipResult
  nbt : Option (List (String × NBTValue))

/-- Outcome of Go's `openFile`. -/
inductive OpenOutcome where
  | ok (mapdata : List (String × NBTValue))
  | fatalExit
  | panicked (msg : String)

/-- Go `openFile` (src/main.go lines 266-285): any error from
`gunzipWrite` or from `nbt.Unmarshal` hits `log.Fatal`, which terminates
the entire process (`fatalExit`); a panic inside `gunzipWrite` propagates. -/
def openFile (f : FileContent) : OpenOutcome :=
  match gunzipWrite f.gzip with
  | GunzipOutcome.panicked m => OpenOutcome.panicked m
  | GunzipOutcome.err => OpenOutcome.fatalExit
  | GunzipOutcome.ok _ =>
    match f.nbt with
    | none => OpenOutcome.fatalExit
    | some mapdata => OpenOutcome.ok mapdata

/-- Outcome of the per-file worker body of `main`. -/
inductive WorkerOutcome where
  | ok (img : GoImage)
  | fatalExit
  | panicked (msg : String)
deriving DecidableEq, Repr

/-- The body of the per-file goroutine in `main` (src/main.go lines 78-110),
up to the image value (writing the PNG is an external effect): open and
decode the file, navigate to `data.colors`, resolve every palette index
through `createAllColors`, and build the image. -/
def processFile (f : FileContent) : WorkerOutcome :=
  match openFile f with
  | OpenOutcome.panicked m => WorkerOutcome.panicked m
  | OpenOutcome.fatalExit => WorkerOutcome.fatalExit
  | OpenOutcome.ok mapdata =>
    match extractColors mapdata with
    | ExtractOutcome.panicked m => WorkerOutcome.panicked m
    | ExtractOutcome.ok colors =>
      match resolvePixels createAllColors colors with
      | Except.error (IndexPanic.indexOutOfRange _ _) =>
          WorkerOutcome.panicked "index out of range"
      | Except.ok pixels => WorkerOutcome.ok (createImageFromPixels pixels)

/-- The filename filter of the batch loop (src/main.go line 76):
`strings.HasPrefix(name, "map_") && strings.HasSuffix(name, ".dat")`,
stated over the character sequences of the strings. -/
def matchesMapDat (name : String) : Bool :=
  "map_".data.isPrefixOf name.data && ".dat".data.isSuffixOf name.data

/-- The count printed by the final summary line (src/main.go line 115):
`fmt.Println("exported", len(entries), "maps in", elapsedTime)` reports
the length of the full directory listing. -/
def summaryCount (entries : List String) : Nat := entries.length

/-- The number of directory entries actually dispatched through the
pipeline: those whose name passes the `map_*.dat` filter. -/
def dispatchedCount (entries : List String) : Nat :=
  (entries.filter matchesMapDat).length

/-- Outcome of the whole batch run. -/
inductive BatchOutcome where
  | completed (images : List GoImage)
  | processAborted
deriving DecidableEq, Repr

/-- The batch loop of `main` (src/main.go lines 74-113): every entry whose
name matches `map_*.dat` is dispatched to a goroutine running
`processFile`.  In Go a panic in any goroutine, or a `log.Fatal` in any
goroutine, terminates the entire process, so the run completes only when
every dispatched worker succeeds; otherwise the process dies and sibling
files are not guaranteed to be processed. -/
def runBatch (entries : List (String × FileContent)) : BatchOutcome :=
  let dispatched := entries.filter (fun e => matchesMapDat e.1)
  let outcomes := dispatched.map (fun e => processFile e.2)
  if outcomes.all (fun o => match o with | WorkerOutcome.ok _ => true | _ => false) then
    BatchOutcome.completed (outcomes.filterMap (fun o =>
      match o with | WorkerOutcome.ok img => some img | _ => none))
  else
    BatchOutcome.processAborted

/-! ## Helper lemmas -/

/-- Indexing into an outer-loop/inner-loop `flatMap`/`map` nest: entry
`i * ms.length + j` of `bs.flatMap (fun b => ms.map (f b))` is `f bs[i] ms[j]`. -/
theorem flatMap_map_getElem? {α β γ : Type} (f : α → β → γ) (bs : List α) (ms : List β)
    (i j : Nat) (hj : j < ms.length) :
    (bs.flatMap (fun b => ms.map (f b)))[i * ms.length + j]? =
      bs[i]?.bind (fun b => ms[j]?.map (f b)) := by
  induction bs generalizing i with
  | nil => simp
  | cons b bs ih =>
    cases i with
    | zero =>
      have hlt : 0 * ms.length + j < (ms.map (f b)).length := by
        simpa using hj
      rw [List.flatMap_cons, List.getElem?_append_left hlt]
      simp [List.getElem?_eq_getElem hj, Nat.zero_mul]
    | succ i =>
      have hge : (ms.map (f b)).length ≤ (i + 1) * ms.length + j := by
        simp [Nat.succ_mul]
        omega
      rw [List.flatMap_cons, List.getElem?_append_right hge]
      have harith : (i + 1) * ms.length + j - (ms.map (f b)).length = i * ms.length + j := by
        simp [Nat.succ_mul]
        omega
      rw [harith, ih i]
      simp

/-- When the index-resolution loop succeeds, it produces one pixel per index. -/
theorem resolvePixels_ok_length (palette : List Pixel) (colors : List Nat)
    (pixels : List Pixel) (h : resolvePixels palette colors = Except.ok pixels) :
    pixels.length = colors.length := by
  induction colors generalizing pixels with
  | nil =>
    simp only [resolvePixels, Except.ok.injEq] at h
    subst h
    rfl
  | cons c rest ih =>
    rw [resolvePixels] at h
    cases hc : palette[c]? with
    | none => rw [hc] at h; cases h
    | some px =>
      rw [hc] at h
      cases hr : resolvePixels palette rest with
      | error e => rw [hr] at h; cases h
      | ok tail =>
        rw [hr] at h
        simp only [Except.map, Except.ok.injEq] at h
        subst h
        simp [ih tail hr]

/-- When the index-resolution loop succeeds, pixel `i` is the palette entry
for index `i`. -/
theorem resolvePixels_ok_getElem? (palette : List Pixel) (colors : List Nat)
    (pixels : List Pixel) (h : resolvePixels palette colors = Except.ok pixels) (i : Nat) :
    pixels[i]? = colors[i]?.bind (fun c => palette[c]?) := by
  induction colors generalizing pixels i with
  | nil =>
    simp only [resolvePixels, Except.ok.injEq] at h
    subst h
    simp
  | cons c rest ih =>
    rw [resolvePixels] at h
    cases hc : palette[c]? with
    | none => rw [hc] at h; cases h
    | some px =>
      rw [hc] at h
      cases hr : resolvePixels palette rest with
      | error e => rw [hr] at h; cases h
      | ok tail =>
        rw [hr] at h
        simp only [Except.map, Except.ok.injEq] at h
        subst h
        cases i with
        | zero => simp [hc]
        | succ i => simp [ih tail hr]

/-! ## Claim theorems -/

/-- Claim C3: `multiplyColor` computes, for each of the first three
channels, the integer floor of `channel * multiplier / 255` and passes the
alpha channel through unchanged; in particular
`multiplyColor {200,100,50,255} 180 = {141,70,35,255}`. -/
theorem multiplyColor_floor_div_alpha_passthrough :
    (∀ (p : Pixel) (m : Nat),
      multiplyColor p m =
        { c0 := p.c0 * m / 255, c1 := p.c1 * m / 255, c2 := p.c2 * m / 255, c3 := p.c3 }) ∧
    multiplyColor ⟨200, 100, 50, 255⟩ 180 = ⟨141, 70, 35, 255⟩ :=
  ⟨fun _ _ => rfl, by decide⟩

/-- Claim C8: `multiplyColor` with multiplier 255 is the identity on every
pixel: the first three channels satisfy `c * 255 / 255 = c` and the alpha
channel is passed through. -/
theorem multiplyColor_255_identity (p : Pixel) : multiplyColor p 255 = p := by
  cases p with
  | mk a b c d =>
    simp [multiplyColor, Nat.mul_div_cancel _ (by omega : (0 : Nat) < 255)]

/-- Claim C8 witness: the identity at a concrete pixel. -/
theorem multiplyColor_255_identity_witness :
    multiplyColor ⟨200, 100, 50, 255⟩ 255 = ⟨200, 100, 50, 255⟩ :=
  multiplyColor_255_identity ⟨200, 100, 50, 255⟩

set_option maxRecDepth 40000 in
/-- Claim C9: the palette has exactly 248 entries (62 base colors times 4
multipliers), so index 247 is in range and index 248 (hence every byte
above it) is out of range, and its first four entries are all the fully
transparent pixel. -/
theorem createAllColors_length_and_transparent_head :
    baseColors.length = 62 ∧
    createAllColors.length = 248 ∧
    createAllColors.take 4 = [⟨0, 0, 0, 0⟩, ⟨0, 0, 0, 0⟩, ⟨0, 0, 0, 0⟩, ⟨0, 0, 0, 0⟩] ∧
    createAllColors[247]?.isSome = true ∧
    createAllColors[248]? = none := by
  refine ⟨rfl, rfl, ?_, ?_, ?_⟩ <;> decide

/-- Claim C2: the palette entry at position `baseIndex*4 + multiplierIndex`
is `multiplyColor baseColors[baseIndex] multipliers[multiplierIndex]`,
because `createAllColors` runs the outer loop over the base-color table in
order and the inner loop over the four multipliers in order. -/
theorem createAllColors_entry (i j : Nat) (hi : i < baseColors.length)
    (hj : j < multipliers.length) :
    createAllColors[i * 4 + j]? =
      some (multiplyColor (baseColors.get ⟨i, hi⟩) (multipliers.get ⟨j, hj⟩)) := by
  have h4 : multipliers.length = 4 := rfl
  rw [createAllColors, show i * 4 + j = i * multipliers.length + j by rw [h4],
    flatMap_map_getElem? multiplyColor baseColors multipliers i j hj,
    List.getElem?_eq_getElem hi, List.getElem?_eq_getElem hj]
  rfl

/-- Claim C2 witness: entry `1*4 + 2` of the palette is the base color at
index 1 scaled by the multiplier at index 2. -/
theorem createAllColors_entry_witness :
    1 < baseColors.length ∧ 2 < multipliers.length ∧
    createAllColors[1 * 4 + 2]? =
      some (multiplyColor (baseColors.get ⟨1, by decide⟩) (multipliers.get ⟨2, by decide⟩)) :=
  ⟨by decide, by decide, createAllColors_entry 1 2 (by decide) (by decide)⟩

/-- Claim C4: if any index in the color sequence is at least the palette
length, the index-resolution loop of `main` ends in an index-out-of-range
error (the Go runtime panic of `allColors[c]`) carrying an out-of-range
index; it never wraps or clamps the index into a successful lookup. -/
theorem resolvePixels_out_of_range (palette : List Pixel) (colors : List Nat) (c : Nat)
    (hmem : c ∈ colors) (hge : palette.length ≤ c) :
    ∃ d, palette.length ≤ d ∧
      resolvePixels palette colors =
        Except.error (IndexPanic.indexOutOfRange d palette.length) := by
  induction colors with
  | nil => cases hmem
  | cons c0 rest ih =>
    rw [resolvePixels]
    cases hc0 : palette[c0]? with
    | none =>
      exact ⟨c0, List.getElem?_eq_none_iff.mp hc0, rfl⟩
    | some px =>
      have hc0lt : c0 < palette.length := by
        by_contra hnotlt
        rw [List.getElem?_eq_none (Nat.le_of_not_lt hnotlt)] at hc0
        cases hc0
      have hcrest : c ∈ rest := by
        cases List.mem_cons.mp hmem with
        | inl heq => omega
        | inr h => exact h
      obtain ⟨d, hd, herr⟩ := ih hcrest
      refine ⟨d, hd, ?_⟩
      rw [herr]
      rfl

set_option maxRecDepth 40000 in
/-- Claim C4 witness: index 255 against the 248-entry palette resolves to
an index-out-of-range error. -/
theorem resolvePixels_out_of_range_witness :
    (255 ∈ [255]) ∧ createAllColors.length ≤ 255 ∧
    ∃ d, createAllColors.length ≤ d ∧
      resolvePixels createAllColors [255] =
        Except.error (IndexPanic.indexOutOfRange d createAllColors.length) :=
  ⟨by decide, by decide,
    resolvePixels_out_of_range createAllColors [255] 255 (by decide) (by decide)⟩

/-- Claim C1: for a sequence of palette indices whose resolution succeeds,
the rendered image is a square grid with side `Nat.sqrt (len indices)`; the
pixel at grid coordinate `(x, y)` (row-major, top-left origin) is the
palette entry for the index at flat position `y*side + x`; and a length
`k*k + r` with `0 ≤ r < 2k+1` still yields a `k × k` grid, so a non-square
remainder is dropped rather than rounded up. -/
theorem render_square_grid (colors : List Nat) (pixels : List Pixel)
    (hres : resolvePixels createAllColors colors = Except.ok pixels) :
    (createImageFromPixels pixels).width = Nat.sqrt colors.length ∧
    (createImageFromPixels pixels).height = Nat.sqrt colors.length ∧
    (createImageFromPixels pixels).rows.length = Nat.sqrt colors.length ∧
    (∀ x y, x < Nat.sqrt colors.length → y < Nat.sqrt colors.length →
      (createImageFromPixels pixels).pixelAt x y =
        colors[y * Nat.sqrt colors.length + x]?.bind (fun c => createAllColors[c]?)) ∧
    (∀ k r, colors.length = k * k + r → r < 2 * k + 1 →
      (createImageFromPixels pixels).width = k) := by
  have hlen : pixels.length = colors.length :=
    resolvePixels_ok_length createAllColors colors pixels hres
  refine ⟨by simp [createImageFromPixels, hlen], by simp [createImageFromPixels, hlen],
    by simp [createImageFromPixels, hlen], ?_, ?_⟩
  · intro x y hx hy
    have hx' : x < Nat.sqrt pixels.length := by rw [hlen]; exact hx
    have hy' : y < Nat.sqrt pixels.length := by rw [hlen]; exact hy
    have hidx : y * Nat.sqrt pixels.length + x < pixels.length := by
      have h1 : y * Nat.sqrt pixels.length + x < (y + 1) * Nat.sqrt pixels.length := by
        rw [Nat.succ_mul]
        exact Nat.add_lt_add_left hx' _
      have h2 : (y + 1) * Nat.sqrt pixels.length ≤
          Nat.sqrt pixels.length * Nat.sqrt pixels.length :=
        Nat.mul_le_mul_right _ hy'
      exact Nat.lt_of_lt_of_le (Nat.lt_of_lt_of_le h1 h2) (Nat.sqrt_le pixels.length)
    simp only [createImageFromPixels, GoImage.pixelAt]
    rw [List.getElem?_map, List.getElem?_range hy']
    simp only [Option.map_some', Option.some_bind]
    rw [List.getElem?_map, List.getElem?_range hx']
    simp only [Option.map_some', Option.some_bind]
    rw [List.getD_eq_getElem?_getD, List.getElem?_eq_getElem hidx]
    rw [← resolvePixels_ok_getElem? createAllColors colors pixels hres]
    rw [hlen] at hidx
    rw [← hlen]
    rw [List.getElem?_eq_getElem (by rw [hlen]; exact hidx)]
    rfl
  · intro k r hkr hr
    have hle : r ≤ k + k := by omega
    simp [createImageFromPixels, hlen, hkr, Nat.sqrt_add_eq k hle]

set_option maxRecDepth 40000 in
/-- Claim C1 witness: four indices (a perfect square) render to a 2-by-2
grid laid out row-major, and a length of 5 = 2*2 + 1 still yields side 2. -/
theorem render_square_grid_witness :
    resolvePixels createAllColors [0, 1, 2, 3] =
      Except.ok [⟨0, 0, 0, 0⟩, ⟨0, 0, 0, 0⟩, ⟨0, 0, 0, 0⟩, ⟨0, 0, 0, 0⟩] ∧
    ((createImageFromPixels
        [⟨0, 0, 0, 0⟩, ⟨0, 0, 0, 0⟩, ⟨0, 0, 0, 0⟩, ⟨0, 0, 0, 0⟩]).width =
        Nat.sqrt ([0, 1, 2, 3] : List Nat).length ∧
      (createImageFromPixels
        [⟨0, 0, 0, 0⟩, ⟨0, 0, 0, 0⟩, ⟨0, 0, 0, 0⟩, ⟨0, 0, 0, 0⟩]).height =
        Nat.sqrt ([0, 1, 2, 3] : List Nat).length ∧
      (createImageFromPixels
        [⟨0, 0, 0, 0⟩, ⟨0, 0, 0, 0⟩, ⟨0, 0, 0, 0⟩, ⟨0, 0, 0, 0⟩]).rows.length =
        Nat.sqrt ([0, 1, 2, 3] : List Nat).length ∧
      (∀ x y, x < Nat.sqrt ([0, 1, 2, 3] : List Nat).length →
        y < Nat.sqrt ([0, 1, 2, 3] : List Nat).length →
        (createImageFromPixels
          [⟨0, 0, 0, 0⟩, ⟨0, 0, 0, 0⟩, ⟨0, 0, 0, 0⟩, ⟨0, 0, 0, 0⟩]).pixelAt x y =
          ([0, 1, 2, 3] : List Nat)[y * Nat.sqrt ([0, 1, 2, 3] : List Nat).length + x]?.bind
            (fun c => createAllColors[c]?)) ∧
      (∀ k r, ([0, 1, 2, 3] : List Nat).length = k * k + r → r < 2 * k + 1 →
        (createImageFromPixels
          [⟨0, 0, 0, 0⟩, ⟨0, 0, 0, 0⟩, ⟨0, 0, 0, 0⟩, ⟨0, 0, 0, 0⟩]).width = k)) :=
  ⟨rfl,
    render_square_grid [0, 1, 2, 3]
      [⟨0, 0, 0, 0⟩, ⟨0, 0, 0, 0⟩, ⟨0, 0, 0, 0⟩, ⟨0, 0, 0, 0⟩] rfl⟩

/-- Claim C10: rendering an empty index sequence is total and error-free:
index resolution performs no palette lookup and succeeds with no pixels,
the derived side length is 0, and the image is an empty 0-by-0 image. -/
theorem render_empty_sequence :
    resolvePixels createAllColors [] = Except.ok [] ∧
    Nat.sqrt ([] : List Pixel).length = 0 ∧
    createImageFromPixels [] = { width := 0, height := 0, rows := [] } :=
  ⟨rfl, rfl, rfl⟩

/-- Claim C5, behavior of the code at the failing input: on a tag tree that
deviates from the expected shape (here a root mapping with no `data` key)
the type assertion does not produce a contained "unexpected map data shape"
error; it panics with a Go runtime interface-conversion error, and a batch
containing such a file next to a well-formed file aborts the whole process,
so the sibling file's processing is not spared. -/
theorem extractColors_bad_shape_panics :
    extractColors [] =
      ExtractOutcome.panicked
        "interface conversion: interface {} is not map[string]interface {}" ∧
    processFile ⟨GzipResult.ok [], some []⟩ =
      WorkerOutcome.panicked
        "interface conversion: interface {} is not map[string]interface {}" ∧
    runBatch
      [("map_0.dat", ⟨GzipResult.ok [], some []⟩),
       ("map_1.dat", ⟨GzipResult.ok [],
          some [("data", NBTValue.compound [("colors", NBTValue.byteArray [0])])]⟩)] =
      BatchOutcome.processAborted := by
  refine ⟨rfl, rfl, ?_⟩
  decide

/-- Claim C6, behavior of the code at the failing input: `gunzipWrite`
ignores the error returned by `gzip.NewReader`, so a corrupt gzip header
leads to a nil-pointer panic in `io.ReadAll`, while a truncated stream is
returned as an error that `openFile` feeds to `log.Fatal`; either way the
whole process terminates, and a batch containing such a file next to a
well-formed file aborts instead of processing the sibling file. -/
theorem gunzip_failure_aborts_process :
    gunzipWrite GzipResult.badHeader =
      GunzipOutcome.panicked "invalid memory address or nil pointer dereference" ∧
    gunzipWrite GzipResult.truncated = GunzipOutcome.err ∧
    openFile ⟨GzipResult.truncated, none⟩ = OpenOutcome.fatalExit ∧
    processFile ⟨GzipResult.truncated, none⟩ = WorkerOutcome.fatalExit ∧
    runBatch
      [("map_0.dat", ⟨GzipResult.badHeader, none⟩),
       ("map_1.dat", ⟨GzipResult.ok [],
          some [("data", NBTValue.compound [("colors", NBTValue.byteArray [0])])]⟩)] =
      BatchOutcome.processAborted ∧
    runBatch
      [("map_0.dat", ⟨GzipResult.truncated, none⟩),
       ("map_1.dat", ⟨GzipResult.ok [],
          some [("data", NBTValue.compound [("colors", NBTValue.byteArray [0])])]⟩)] =
      BatchOutcome.processAborted := by
  refine ⟨rfl, rfl, rfl, rfl, ?_, ?_⟩ <;> decide

/-- Claim C7, behavior of the code at the failing input: the summary line
prints `len(entries)`, the size of the whole directory listing, which
differs from the number of entries dispatched through the pipeline as soon
as the directory holds an entry not matching `map_*.dat`. -/
theorem summary_counts_all_entries :
    summaryCount ["map_0.dat", "notes.txt"] = 2 ∧
    dispatchedCount ["map_0.dat", "notes.txt"] = 1 ∧
    summaryCount ["map_0.dat", "notes.txt"] ≠
      dispatchedCount ["map_0.dat", "notes.txt"] := by
  refine ⟨rfl, ?_, ?_⟩ <;> decide

end MCMap
